import Mathlib

/-!
# Verification of the student-evaluation serverless application

Shallow embedding of the inline Python Lambda handlers defined in
`students-evaluate-app/cfn.yaml`, `sample-cfn/cloudformation-template.yaml`
and `cdk/lib/cdk-stack.ts`:

* `EvaluationApi.lambda_handler` — the API Gateway handler (GET/PUT over the
  DynamoDB table keyed by `(students_id, period)`), from
  `students-evaluate-app/cfn.yaml` lines 74–155 (identical inline code in
  `cdk/lib/cdk-stack.ts`).
* `SampleApi.lambda_handler`, `SampleApi.get_student_evaluation`,
  `SampleApi.update_teacher_evaluation` — the façade variant in
  `sample-cfn/cloudformation-template.yaml` lines 91–259.
* `CallAgent.lambda_handler` / `CallAgent.runLoop` — the agent-orchestration
  Lambda in `students-evaluate-app/cfn.yaml` lines 509–611.

DynamoDB is modelled as an association list from composite keys to items;
`put_item` replaces the whole item, `update_item` merges `SET` clauses into
the existing item (creating it when absent), exactly as DynamoDB does for the
expressions used by this code.  External effects (Bedrock agent streaming
responses, per-iteration timestamps, `update_item` faults) are supplied by
oracles indexed by iteration, and SNS publishes are recorded in a list.
-/

/-- One DynamoDB item of the `students-evaluation` table, without its key
attributes (the key is held by the store).  Every non-key attribute this
code ever writes is optional: `put_item` (achievements PUT) writes
`achievements`/`updated_at`, the teacher PUT writes `teacher_evaluation`,
the orchestration loop writes `agent_evaluation`/`evaluation_date`. -/
structure Item where
  achievements : Option (List String)
  updated_at : Option String
  teacher_evaluation : Option String
  agent_evaluation : Option String
  evaluation_date : Option String
deriving DecidableEq, Repr

/-- The item with no non-key attributes: what `update_item` starts from when
the key does not yet exist. -/
def emptyItem : Item :=
  { achievements := none, updated_at := none, teacher_evaluation := none,
    agent_evaluation := none, evaluation_date := none }

/-- Composite DynamoDB key: partition key `students_id`, sort key `period`. -/
abbrev StoreKey := String × String

/-- The DynamoDB table, as an association list; `Store.get` returns the first
binding of a key, `Store.put` shadows any previous binding (so a put is a
whole-item overwrite, as `put_item` is). -/
abbrev Store := List (StoreKey × Item)

/-- `get_item`: the item at `k`, or `none` when the key was never written. -/
def Store.get : Store → StoreKey → Option Item
  | [], _ => none
  | (k', v) :: rest, k => if k' = k then some v else Store.get rest k

/-- `put_item`: bind `k` to `v`, shadowing any previous binding. -/
def Store.put (s : Store) (k : StoreKey) (v : Item) : Store :=
  (k, v) :: s

/-- Python truthiness of an optional string: `None` and `""` are falsy
(`if not students_id` in the handlers). -/
def truthyStr : Option String → Bool
  | none => false
  | some s => !s.isEmpty

namespace EvaluationApi

/-- The fields of the API Gateway event that
`students-evaluate-app/cfn.yaml`'s `EvaluationApiFunction.lambda_handler`
reads: `httpMethod`, the two query-string parameters, and the JSON body's
`students_id` / `period` / `achievements` (the latter defaults to `[]` via
`body.get('achievements', [])`). -/
structure ApiEvent where
  httpMethod : String
  query_students_id : Option String
  query_period : Option String
  body_students_id : Option String
  body_period : Option String
  body_achievements : List String
deriving DecidableEq, Repr

/-- The JSON response body this handler can produce: `json.dumps(item)` for a
found record, `json.dumps({})` when the `get_item` misses, or a
`{'message': ...}` object. -/
inductive ApiBody where
  | record (item : Item)
  | emptyObject
  | message (msg : String)
deriving DecidableEq, Repr

/-- The handler's return value: `statusCode` and JSON body. -/
structure ApiResponse where
  statusCode : Nat
  body : ApiBody
deriving DecidableEq, Repr

/-- `EvaluationApiFunction.lambda_handler` from
`students-evaluate-app/cfn.yaml` lines 74–155 (the same inline code appears
in `cdk/lib/cdk-stack.ts`).  `now` is `datetime.now().isoformat()` observed
in the PUT branch.  Returns the HTTP response together with the table state
after the call. -/
def lambda_handler (s : Store) (now : String) (ev : ApiEvent) :
    ApiResponse × Store :=
  if ev.httpMethod = "GET" then
    if (truthyStr ev.query_students_id && truthyStr ev.query_period) = false then
      (⟨400, .message "students_id and period are required"⟩, s)
    else
      let students_id := ev.query_students_id.getD ""
      let period := ev.query_period.getD ""
      match Store.get s (students_id, period) with
      | some item => (⟨200, .record item⟩, s)
      | none => (⟨200, .emptyObject⟩, s)
  else if ev.httpMethod = "PUT" then
    if (truthyStr ev.body_students_id && truthyStr ev.body_period &&
        !ev.body_achievements.isEmpty) = false then
      (⟨400, .message "students_id, period, and achievements are required"⟩, s)
    else
      let students_id := ev.body_students_id.getD ""
      let period := ev.body_period.getD ""
      let item : Item :=
        { achievements := some ev.body_achievements, updated_at := some now,
          teacher_evaluation := none, agent_evaluation := none,
          evaluation_date := none }
      (⟨200, .message "Data saved successfully"⟩,
        Store.put s (students_id, period) item)
  else
    (⟨405, .message "Method not allowed"⟩, s)

end EvaluationApi

namespace SampleApi

/-- The fields of the API Gateway event read by the façade variant in
`sample-cfn/cloudformation-template.yaml` (lines 91–183): `httpMethod`, the
two query-string parameters, and the JSON body's `students_id` / `period` /
`teacher_evaluation`. -/
structure SampleEvent where
  httpMethod : String
  query_students_id : Option String
  query_period : Option String
  body_students_id : Option String
  body_period : Option String
  body_teacher_evaluation : Option String
deriving DecidableEq, Repr

/-- JSON bodies the sample façade can return: the raw found item, the
not-found object `{"message", "students_id", "period"}`, the PUT result
`{"message", "students_id", "period", "updated_item"}`, or a bare
`{'message': ...}`. -/
inductive SampleBody where
  | record (item : Item)
  | notFound (students_id period : String)
  | teacherUpdate (students_id period : String) (updated_item : Item)
  | message (msg : String)
deriving DecidableEq, Repr

/-- The sample façade's HTTP response. -/
structure SampleResponse where
  statusCode : Nat
  body : SampleBody
deriving DecidableEq, Repr

/-- `get_student_evaluation` from `sample-cfn/cloudformation-template.yaml`
lines 185–219: `get_item` on the composite key; a miss returns the explicit
not-found object (still under a 200), a hit returns the item. -/
def get_student_evaluation (s : Store) (students_id period : String) :
    SampleBody :=
  match Store.get s (students_id, period) with
  | some item => .record item
  | none => .notFound students_id period

/-- `update_teacher_evaluation` from `sample-cfn/cloudformation-template.yaml`
lines 221–259: `update_item` with `SET teacher_evaluation = :te` and
`ReturnValues='ALL_NEW'`.  DynamoDB merges the `SET` clause into the existing
item (creating one when the key is absent) and returns the post-update item. -/
def update_teacher_evaluation (s : Store) (students_id period te : String) :
    Item × Store :=
  let old := (Store.get s (students_id, period)).getD emptyItem
  let updated := { old with teacher_evaluation := some te }
  (updated, Store.put s (students_id, period) updated)

/-- `EvaluationApiFunction.lambda_handler` from
`sample-cfn/cloudformation-template.yaml` lines 91–183. -/
def lambda_handler (s : Store) (ev : SampleEvent) : SampleResponse × Store :=
  if ev.httpMethod = "GET" then
    if (truthyStr ev.query_students_id && truthyStr ev.query_period) = false then
      (⟨400, .message "学生IDと期間の両方が必要です。"⟩, s)
    else
      (⟨200, get_student_evaluation s (ev.query_students_id.getD "")
        (ev.query_period.getD "")⟩, s)
  else if ev.httpMethod = "PUT" then
    if (truthyStr ev.body_students_id && truthyStr ev.body_period &&
        truthyStr ev.body_teacher_evaluation) = false then
      (⟨400, .message "学生ID、期間、教師評価の全てが必要です。"⟩, s)
    else
      let students_id := ev.body_students_id.getD ""
      let period := ev.body_period.getD ""
      let te := ev.body_teacher_evaluation.getD ""
      let r := update_teacher_evaluation s students_id period te
      (⟨200, .teacherUpdate students_id period r.1⟩, r.2)
  else
    (⟨405, .message "unsupported method"⟩, s)

end SampleApi

/-- One event of the Bedrock `invoke_agent` completion `EventStream`: the
event may carry a `chunk`, and the chunk may carry decoded `bytes` text. -/
structure StreamEvent where
  chunk : Option (Option String)
deriving DecidableEq, Repr

/-- The loop over the `EventStream` in `CallAgentFunction.lambda_handler`
(`students-evaluate-app/cfn.yaml` lines 542–552): starting from
`agent_response = ""`, append `chunk['bytes']` for every event that has a
chunk with bytes; other events are skipped. -/
def concatStream (stream : List StreamEvent) : String :=
  stream.foldl
    (fun agent_response ev =>
      match ev.chunk with
      | some chunk =>
        match chunk with
        | some text => agent_response ++ text
        | none => agent_response
      | none => agent_response) ""

/-- The text fragments of a stream, in delivery order (the events that carry
a chunk with bytes). -/
def textFragments (stream : List StreamEvent) : List String :=
  stream.filterMap (fun ev =>
    match ev.chunk with
    | some chunk => chunk
    | none => none)

namespace CallAgent

/-- Outcome of one agent invocation as seen by the loop: the completion
stream, or a raised exception. -/
inductive AgentResult where
  | ok (stream : List StreamEvent)
  | error (msg : String)
deriving DecidableEq, Repr

/-- `timestamp = datetime.now().isoformat().replace(':', '_').replace('.', '_')`
(`students-evaluate-app/cfn.yaml` line 557). -/
def sanitizeTimestamp (t : String) : String :=
  t.map (fun c => if c = ':' || c = '.' then '_' else c)

/-- One `table.update_item` call of the orchestration loop
(`students-evaluate-app/cfn.yaml` lines 560–570):
`SET agent_evaluation = :eval, evaluation_date = :date` at key
`(str(current_id), period)`. -/
structure AgentWrite where
  students_id : String
  period : String
  agent_evaluation : String
  evaluation_date : String
deriving DecidableEq, Repr

/-- `update_item` with `SET agent_evaluation = :eval, evaluation_date = :date`:
merge into the existing item (creating it when absent). -/
def put_agent_evaluation (s : Store) (students_id period text ts : String) :
    Store :=
  let old := (Store.get s (students_id, period)).getD emptyItem
  Store.put s (students_id, period)
    { old with agent_evaluation := some text, evaluation_date := some ts }

/-- Apply one logged write to the store. -/
def applyWrite (s : Store) (w : AgentWrite) : Store :=
  put_agent_evaluation s w.students_id w.period w.agent_evaluation
    w.evaluation_date

/-- Apply a sequence of logged writes in order. -/
def applyWrites (s : Store) (ws : List AgentWrite) : Store :=
  ws.foldl applyWrite s

/-- Result of the `for i in range(loop_count)` loop: normal completion or a
raised exception, in both cases with the store, the ordered log of
`update_item` calls performed, and the `results` id list accumulated so far. -/
inductive LoopOutcome where
  | ok (s : Store) (log : List AgentWrite) (results : List String)
  | fail (err : String) (s : Store) (log : List AgentWrite)
      (results : List String)
deriving DecidableEq, Repr

/-- The iteration loop of `CallAgentFunction.lambda_handler`
(`students-evaluate-app/cfn.yaml` lines 521–575).  External behaviour is
supplied per iteration index `i`: `agent i` is the `invoke_agent` outcome
(the loop opens a fresh `session_id` per call), `writeFails i` is a raised
`update_item` exception when `some`, and `nowF i` is
`datetime.now().isoformat()` of that iteration.  The first exception aborts
the remaining iterations (`time.sleep(30)` has no modelled effect). -/
def runLoop (agent : Nat → AgentResult) (writeFails : Nat → Option String)
    (nowF : Nat → String) (period : String) :
    Nat → Int → Nat → Store → List AgentWrite → List String → LoopOutcome
  | 0, _, _, s, log, results => .ok s log results
  | n + 1, current_id, i, s, log, results =>
    match agent i with
    | .error e => .fail e s log results
    | .ok stream =>
      match writeFails i with
      | some e => .fail e s log results
      | none =>
        let agent_response := concatStream stream
        let timestamp := sanitizeTimestamp (nowF i)
        let w : AgentWrite :=
          ⟨toString current_id, period, agent_response, timestamp⟩
        runLoop agent writeFails nowF period n (current_id + 1) (i + 1)
          (applyWrite s w) (log ++ [w]) (results ++ [toString current_id])

/-- The environment of one invocation: the three per-iteration oracles plus
whether `SNS_TOPIC_ARN` is present in `os.environ`. -/
structure OrchEnv where
  agent : Nat → AgentResult
  writeFails : Nat → Option String
  nowF : Nat → String
  snsPresent : Bool

/-- The scheduled-invocation payload fields the handler reads
(`event.get('students_id', '1')`, `event.get('period', '202504')`,
`int(event.get('loop_count', 3))`). -/
structure OrchEvent where
  students_id : Option String
  period : Option String
  loop_count : Option Nat
deriving DecidableEq, Repr

/-- One `sns.publish` call: the success notification after the loop, or the
failure notification from the `except` block. -/
inductive Notification where
  | success (period : String) (processed_ids : List String)
  | failure (period : String) (students_id : String) (err : String)
deriving DecidableEq, Repr

/-- Observable outcome of one handler invocation: the returned status code
and `results` list, the final table state, the ordered `update_item` log,
and the `sns.publish` calls made. -/
structure OrchResult where
  statusCode : Nat
  results : List String
  store : Store
  writeLog : List AgentWrite
  notifications : List Notification
deriving DecidableEq, Repr

/-- Read a non-empty all-digit character list as a natural number. -/
def parseDigits (cs : List Char) : Option Nat :=
  cs.foldl
    (fun acc c =>
      match acc with
      | none => none
      | some n => if c.isDigit then some (n * 10 + (c.toNat - 48)) else none)
    (if cs.isEmpty then none else some 0)

/-- Python `int(...)` on the string inputs this system uses: an optional
sign followed by decimal digits (leading/trailing whitespace and digit
underscores, which CPython also strips, do not occur here); a parse failure
is the raised `ValueError`. -/
def pyParseInt (s : String) : Option Int :=
  match s.data with
  | '-' :: rest => (parseDigits rest).map (fun n => -(n : Int))
  | '+' :: rest => (parseDigits rest).map (fun n => (n : Int))
  | cs => (parseDigits cs).map (fun n => (n : Int))

/-- The `ValueError` text raised by `int(s)` on a non-numeric string. -/
def invalidLiteralMsg (s : String) : String :=
  "invalid literal for int() with base 10: " ++ s

/-- `CallAgentFunction.lambda_handler` from `students-evaluate-app/cfn.yaml`
lines 509–611 (identical inline code in `cdk/lib/cdk-stack.ts`): read the
payload with defaults, convert `students_id` with `int(...)`, run the
iteration loop, then publish exactly one success notification (guarded on
`SNS_TOPIC_ARN`) and return 200 — or, if any step raised, publish exactly
one failure notification (same guard) and return 500. -/
def lambda_handler (env : OrchEnv) (s : Store) (ev : OrchEvent) : OrchResult :=
  let students_id := ev.students_id.getD "1"
  let period := ev.period.getD "202504"
  let loop_count := ev.loop_count.getD 3
  match pyParseInt students_id with
  | none =>
    { statusCode := 500, results := [], store := s, writeLog := [],
      notifications :=
        if env.snsPresent then
          [.failure period students_id (invalidLiteralMsg students_id)]
        else [] }
  | some current_id =>
    match runLoop env.agent env.writeFails env.nowF period loop_count
        current_id 0 s [] [] with
    | .ok s' log results =>
      { statusCode := 200, results := results, store := s', writeLog := log,
        notifications :=
          if env.snsPresent then [.success period results] else [] }
    | .fail e s' log _ =>
      { statusCode := 500, results := [], store := s', writeLog := log,
        notifications :=
          if env.snsPresent then [.failure period students_id e] else [] }

/-- Whether the agent call of iteration `i` returns normally. -/
def agentOk (agent : Nat → AgentResult) (i : Nat) : Bool :=
  match agent i with
  | .ok _ => true
  | .error _ => false

/-- The stream returned by the agent call of iteration `i` (meaningful when
`agentOk agent i`). -/
def agentStreamOf (agent : Nat → AgentResult) (i : Nat) : List StreamEvent :=
  match agent i with
  | .ok stream => stream
  | .error _ => []

/-- The `update_item` the loop performs in iteration `i` at subject id
`current_id`, when that iteration succeeds. -/
def expectedWrite (agent : Nat → AgentResult) (nowF : Nat → String)
    (period : String) (current_id : Int) (i : Nat) : AgentWrite :=
  ⟨toString current_id, period, concatStream (agentStreamOf agent i),
    sanitizeTimestamp (nowF i)⟩

/-- The writes of `n` consecutive successful iterations starting at subject
id `current_id` and iteration index `i`. -/
def segWrites (agent : Nat → AgentResult) (nowF : Nat → String)
    (period : String) : Int → Nat → Nat → List AgentWrite
  | _, _, 0 => []
  | current_id, i, n + 1 =>
    expectedWrite agent nowF period current_id i ::
      segWrites agent nowF period (current_id + 1) (i + 1) n

/-- The `results` ids of `n` consecutive successful iterations starting at
subject id `current_id`. -/
def segIds : Int → Nat → List String
  | _, 0 => []
  | current_id, n + 1 => toString current_id :: segIds (current_id + 1) n

end CallAgent

theorem Store.get_put (s : Store) (k : StoreKey) (v : Item) :
    Store.get (Store.put s k v) k = some v := by
  simp [Store.get, Store.put]

theorem Store.get_put_ne (s : Store) (k k' : StoreKey) (v : Item)
    (h : k ≠ k') : Store.get (Store.put s k v) k' = Store.get s k' := by
  simp [Store.get, Store.put, h]

theorem truthyStr_some_of_ne {s : String} (h : s ≠ "") :
    truthyStr (some s) = true := by
  have h' : ¬ s.isEmpty := by simpa [String.isEmpty_iff] using h
  simp [truthyStr, h']

theorem isEmpty_false_of_ne_nil {α : Type} {l : List α} (h : l ≠ []) :
    l.isEmpty = false := by
  cases l with
  | nil => exact absurd rfl h
  | cons a t => rfl

/-- **C1.** For every valid non-empty `(students_id, period)` key and
non-empty achievements list, a GET on that key performed after a PUT of
those achievements on the same key returns 200 with a record whose
`achievements` field equals exactly the list that was written and whose
`updated_at` equals the timestamp taken at the time of that write. -/
theorem put_get_roundtrip (s s₁ : Store) (now getNow students_id period : String)
    (achievements : List String) (resp : EvaluationApi.ApiResponse)
    (hsid : students_id ≠ "") (hp : period ≠ "") (hach : achievements ≠ [])
    (h1 : s₁ = (EvaluationApi.lambda_handler s now
      ⟨"PUT", none, none, some students_id, some period, achievements⟩).2)
    (h2 : resp = (EvaluationApi.lambda_handler s₁ getNow
      ⟨"GET", some students_id, some period, none, none, []⟩).1) :
    resp = ⟨200, .record
      { achievements := some achievements, updated_at := some now,
        teacher_evaluation := none, agent_evaluation := none,
        evaluation_date := none }⟩ := by
  subst h1 h2
  simp [EvaluationApi.lambda_handler, truthyStr_some_of_ne hsid,
    truthyStr_some_of_ne hp, isEmpty_false_of_ne_nil hach, Store.get_put]

theorem put_get_roundtrip_witness :
    (EvaluationApi.lambda_handler
      ((EvaluationApi.lambda_handler [] "2025-04-01T09:00:00"
        ⟨"PUT", none, none, some "1", some "202504", ["did homework"]⟩).2)
      "2025-04-02T09:00:00"
      ⟨"GET", some "1", some "202504", none, none, []⟩).1 =
    ⟨200, .record
      { achievements := some ["did homework"],
        updated_at := some "2025-04-01T09:00:00",
        teacher_evaluation := none, agent_evaluation := none,
        evaluation_date := none }⟩ :=
  put_get_roundtrip [] _ "2025-04-01T09:00:00" "2025-04-02T09:00:00"
    "1" "202504" ["did homework"] _
    (by decide) (by decide) (by decide) rfl rfl

/-- **C5** (implicit). A successful achievements PUT replaces the stored
record in its entirety (`put_item` overwrite): after the write the record
holds only `achievements` and `updated_at`, so any `teacher_evaluation`,
`agent_evaluation` or `evaluation_date` previously stored under the same key
is gone, whatever the previous store contents were. -/
theorem put_achievements_replaces_record (s s₁ : Store)
    (now students_id period : String) (achievements : List String)
    (hsid : students_id ≠ "") (hp : period ≠ "") (hach : achievements ≠ [])
    (h1 : s₁ = (EvaluationApi.lambda_handler s now
      ⟨"PUT", none, none, some students_id, some period, achievements⟩).2) :
    Store.get s₁ (students_id, period) = some
      { achievements := some achievements, updated_at := some now,
        teacher_evaluation := none, agent_evaluation := none,
        evaluation_date := none } := by
  subst h1
  simp [EvaluationApi.lambda_handler, truthyStr_some_of_ne hsid,
    truthyStr_some_of_ne hp, isEmpty_false_of_ne_nil hach, Store.get_put]

theorem put_achievements_replaces_record_witness :
    Store.get
      ((EvaluationApi.lambda_handler
        [(("1", "202504"),
          ⟨some ["old"], some "t0", some "good work", some "agent says ok",
            some "t0"⟩)]
        "t1" ⟨"PUT", none, none, some "1", some "202504", ["new"]⟩).2)
      ("1", "202504") = some
      { achievements := some ["new"], updated_at := some "t1",
        teacher_evaluation := none, agent_evaluation := none,
        evaluation_date := none } :=
  put_achievements_replaces_record
    [(("1", "202504"),
      ⟨some ["old"], some "t0", some "good work", some "agent says ok",
        some "t0"⟩)]
    _ "t1" "1" "202504" ["new"] (by decide) (by decide) (by decide) rfl

/-- **C6.** A PUT whose body lacks `students_id`, `period` or
`achievements`, or whose achievements list is empty (i.e. the handler's
truthiness guard fails), returns 400 with a human-readable message and
leaves the store exactly as it was. -/
theorem put_missing_fields_rejected (s : Store) (now : String)
    (ev : EvaluationApi.ApiEvent)
    (hput : ev.httpMethod = "PUT")
    (hbad : (truthyStr ev.body_students_id && truthyStr ev.body_period &&
      !ev.body_achievements.isEmpty) = false) :
    EvaluationApi.lambda_handler s now ev =
      (⟨400, .message "students_id, period, and achievements are required"⟩,
        s) := by
  simp [EvaluationApi.lambda_handler, hput, hbad]

theorem put_missing_fields_rejected_witness :
    EvaluationApi.lambda_handler
      [(("1", "202504"), ⟨some ["old"], some "t0", none, none, none⟩)] "t1"
      ⟨"PUT", none, none, some "1", some "202504", []⟩ =
    (⟨400, .message "students_id, period, and achievements are required"⟩,
      [(("1", "202504"), ⟨some ["old"], some "t0", none, none, none⟩)]) :=
  put_missing_fields_rejected _ "t1" _ (by decide) (by decide)

/-- **C7.** A well-formed GET (both parameters non-empty) whose key was
never written returns the explicit not-found result — 200 with the empty
JSON object — and not an error; a GET missing either parameter returns 400,
and does so before any store access: its response does not depend on the
store at all. -/
theorem get_notfound_and_param_check (s s₂ : Store)
    (now now₂ now₃ students_id period : String)
    (q_students_id q_period : Option String)
    (hsid : students_id ≠ "") (hp : period ≠ "")
    (hmiss : Store.get s (students_id, period) = none)
    (hbad : (truthyStr q_students_id && truthyStr q_period) = false) :
    EvaluationApi.lambda_handler s now
      ⟨"GET", some students_id, some period, none, none, []⟩ =
      (⟨200, .emptyObject⟩, s) ∧
    EvaluationApi.lambda_handler s now₂
      ⟨"GET", q_students_id, q_period, none, none, []⟩ =
      (⟨400, .message "students_id and period are required"⟩, s) ∧
    (EvaluationApi.lambda_handler s now₂
      ⟨"GET", q_students_id, q_period, none, none, []⟩).1 =
    (EvaluationApi.lambda_handler s₂ now₃
      ⟨"GET", q_students_id, q_period, none, none, []⟩).1 := by
  refine ⟨?_, ?_, ?_⟩
  · simp [EvaluationApi.lambda_handler, truthyStr_some_of_ne hsid,
      truthyStr_some_of_ne hp, hmiss]
  · simp [EvaluationApi.lambda_handler, hbad]
  · simp [EvaluationApi.lambda_handler, hbad]

theorem get_notfound_and_param_check_witness :
    EvaluationApi.lambda_handler [] "t0"
      ⟨"GET", some "7", some "202504", none, none, []⟩ =
      (⟨200, .emptyObject⟩, []) ∧
    EvaluationApi.lambda_handler [] "t1"
      ⟨"GET", some "7", none, none, none, []⟩ =
      (⟨400, .message "students_id and period are required"⟩, []) ∧
    (EvaluationApi.lambda_handler [] "t1"
      ⟨"GET", some "7", none, none, none, []⟩).1 =
    (EvaluationApi.lambda_handler
      [(("1", "202504"), ⟨some ["x"], some "t0", none, none, none⟩)] "t2"
      ⟨"GET", some "7", none, none, none, []⟩).1 :=
  get_notfound_and_param_check []
    [(("1", "202504"), ⟨some ["x"], some "t0", none, none, none⟩)]
    "t0" "t1" "t2" "7" "202504" (some "7") none
    (by decide) (by decide) (by decide) (by decide)

/-- **C4.** For every record state and non-empty teacher-evaluation text,
the teacher PUT sets only `teacher_evaluation`: the stored record's
`achievements`, `agent_evaluation`, `evaluation_date` and `updated_at` are
exactly those of the previous record at that key, and the handler returns
200 with the full post-update record. -/
theorem teacher_update_frame (s s' : Store) (students_id period te : String)
    (old : Item) (resp : SampleApi.SampleResponse)
    (hsid : students_id ≠ "") (hp : period ≠ "") (hte : te ≠ "")
    (hold : old = (Store.get s (students_id, period)).getD emptyItem)
    (hresp : resp = (SampleApi.lambda_handler s
      ⟨"PUT", none, none, some students_id, some period, some te⟩).1)
    (hs' : s' = (SampleApi.lambda_handler s
      ⟨"PUT", none, none, some students_id, some period, some te⟩).2) :
    resp = ⟨200, .teacherUpdate students_id period
      { old with teacher_evaluation := some te }⟩ ∧
    Store.get s' (students_id, period) =
      some { old with teacher_evaluation := some te } ∧
    ({ old with teacher_evaluation := some te }).achievements =
      old.achievements ∧
    ({ old with teacher_evaluation := some te }).agent_evaluation =
      old.agent_evaluation ∧
    ({ old with teacher_evaluation := some te }).evaluation_date =
      old.evaluation_date ∧
    ({ old with teacher_evaluation := some te }).updated_at =
      old.updated_at := by
  subst hold hresp hs'
  refine ⟨?_, ?_, rfl, rfl, rfl, rfl⟩ <;>
    simp [SampleApi.lambda_handler, SampleApi.update_teacher_evaluation,
      truthyStr_some_of_ne hsid, truthyStr_some_of_ne hp,
      truthyStr_some_of_ne hte, Store.get_put]

theorem teacher_update_frame_witness :
    (SampleApi.lambda_handler
      [(("1", "202504"),
        ⟨some ["old"], some "t0", some "previous", some "agent text",
          some "d0"⟩)]
      ⟨"PUT", none, none, some "1", some "202504", some "worked hard"⟩).1 =
    ⟨200, .teacherUpdate "1" "202504"
      ⟨some ["old"], some "t0", some "worked hard", some "agent text",
        some "d0"⟩⟩ ∧
    Store.get
      ((SampleApi.lambda_handler
        [(("1", "202504"),
          ⟨some ["old"], some "t0", some "previous", some "agent text",
            some "d0"⟩)]
        ⟨"PUT", none, none, some "1", some "202504", some "worked hard"⟩).2)
      ("1", "202504") =
      some ⟨some ["old"], some "t0", some "worked hard", some "agent text",
        some "d0"⟩ := by
  have h := teacher_update_frame
    [(("1", "202504"),
      ⟨some ["old"], some "t0", some "previous", some "agent text",
        some "d0"⟩)]
    _ "1" "202504" "worked hard" _ _
    (by decide) (by decide) (by decide) rfl rfl rfl
  exact ⟨h.1, h.2.1⟩

theorem concatStream_foldl (stream : List StreamEvent) (acc : String) :
    stream.foldl
      (fun agent_response ev =>
        match ev.chunk with
        | some chunk =>
          match chunk with
          | some text => agent_response ++ text
          | none => agent_response
        | none => agent_response) acc =
    (textFragments stream).foldl (fun r s => r ++ s) acc := by
  induction stream generalizing acc with
  | nil => rfl
  | cons ev rest ih =>
    cases hch : ev.chunk with
    | none => simp [textFragments, List.filterMap_cons, hch, ih]
    | some chunk =>
      cases chunk with
      | none => simp [textFragments, List.filterMap_cons, hch, ih]
      | some text => simp [textFragments, List.filterMap_cons, hch, ih]

/-- **C9.** The stored agent result is the concatenation, in delivery order,
of all text fragments of the response stream; in particular a stream whose
fragments are `["a", "b", "c"]` yields `"abc"`, and a stream with no
fragments (here: one chunkless event and one chunk without bytes) yields
`""`, not an error. -/
theorem stream_concat_is_join (stream : List StreamEvent) :
    concatStream stream = String.join (textFragments stream) ∧
    concatStream [⟨some (some "a")⟩, ⟨some (some "b")⟩, ⟨some (some "c")⟩]
      = "abc" ∧
    concatStream [⟨none⟩, ⟨some none⟩] = "" := by
  refine ⟨?_, by decide, by decide⟩
  simpa [concatStream, String.join] using concatStream_foldl stream ""

namespace CallAgent

theorem agentOk_true_iff (agent : Nat → AgentResult) (i : Nat) :
    agentOk agent i = true ↔ ∃ stream, agent i = .ok stream := by
  cases h : agent i <;> simp [agentOk, h]

/-- If the first `k` iterations (counting from index `i`) succeed and
iteration `i + k` raises (either in the agent call or in the store write),
the loop returns the raised error, having performed exactly the writes and
collected exactly the ids of those first `k` iterations. -/
theorem runLoop_fail_prefix (agent : Nat → AgentResult)
    (writeFails : Nat → Option String) (nowF : Nat → String)
    (period : String) :
    ∀ (k n : Nat) (current_id : Int) (i : Nat) (s : Store)
      (log : List AgentWrite) (results : List String),
      k < n →
      (∀ j, j < k → agentOk agent (i + j) = true ∧ writeFails (i + j) = none) →
      (agentOk agent (i + k) = false ∨ writeFails (i + k) ≠ none) →
      ∃ e, runLoop agent writeFails nowF period n current_id i s log results =
        .fail e (applyWrites s (segWrites agent nowF period current_id i k))
          (log ++ segWrites agent nowF period current_id i k)
          (results ++ segIds current_id k)
  | 0, n, current_id, i, s, log, results, hkn, _, hfail => by
    obtain ⟨m, rfl⟩ : ∃ m, n = m + 1 := ⟨n - 1, by omega⟩
    cases hag : agent i with
    | error e =>
      exact ⟨e, by simp [runLoop, hag, segWrites, segIds, applyWrites]⟩
    | ok stream =>
      have hok : agentOk agent (i + 0) = true := by simp [agentOk, hag]
      rcases hfail with hf | hf
      · rw [hok] at hf; cases hf
      · obtain ⟨e, he⟩ : ∃ e, writeFails i = some e := by
          cases hwf : writeFails i with
          | none => rw [Nat.add_zero] at hf; exact absurd hwf hf
          | some e => exact ⟨e, rfl⟩
        exact ⟨e, by simp [runLoop, hag, he, segWrites, segIds, applyWrites]⟩
  | k + 1, n, current_id, i, s, log, results, hkn, hpre, hfail => by
    obtain ⟨m, rfl⟩ : ∃ m, n = m + 1 := ⟨n - 1, by omega⟩
    have h0 := hpre 0 (Nat.succ_pos k)
    rw [Nat.add_zero] at h0
    obtain ⟨stream, hag⟩ := (agentOk_true_iff agent i).mp h0.1
    have hwf : writeFails i = none := h0.2
    obtain ⟨e, he⟩ := runLoop_fail_prefix agent writeFails nowF period
      k m (current_id + 1) (i + 1)
      (applyWrite s ⟨toString current_id, period, concatStream stream,
        sanitizeTimestamp (nowF i)⟩)
      (log ++ [⟨toString current_id, period, concatStream stream,
        sanitizeTimestamp (nowF i)⟩])
      (results ++ [toString current_id])
      (by omega)
      (fun j hj => by
        have hj' := hpre (j + 1) (by omega)
        rwa [show i + (j + 1) = i + 1 + j by omega] at hj')
      (by rwa [show i + (k + 1) = i + 1 + k by omega] at hfail)
    have hst : agentStreamOf agent i = stream := by simp [agentStreamOf, hag]
    refine ⟨e, ?_⟩
    simp only [runLoop, hag, hwf]
    rw [he]
    simp [segWrites, segIds, applyWrites, expectedWrite, hst,
      List.append_assoc]

end CallAgent

/-- **C2.** If the first `k` iterations of a run succeed and iteration `k`
raises (in the agent call or in the store write), the run returns 500, its
`update_item` log is exactly the writes of iterations `0 .. k-1` (so earlier
`agent_evaluation` writes are retained and nothing at or after iteration `k`
is written), the final store is the initial store with exactly those writes
applied (no rollback), and exactly one failure notification — and no success
notification — is published. -/
theorem loop_failure_preserves_prefix (env : CallAgent.OrchEnv) (s : Store)
    (students_id period : String) (n : Nat) (start : Int) (k : Nat)
    (r : CallAgent.OrchResult)
    (hr : r = CallAgent.lambda_handler env s
      ⟨some students_id, some period, some n⟩)
    (hparse : CallAgent.pyParseInt students_id = some start)
    (hk : k < n)
    (hpre : ∀ j, j < k → CallAgent.agentOk env.agent j = true ∧
      env.writeFails j = none)
    (hfail : CallAgent.agentOk env.agent k = false ∨ env.writeFails k ≠ none)
    (hsns : env.snsPresent = true) :
    r.statusCode = 500 ∧
    r.writeLog = CallAgent.segWrites env.agent env.nowF period start 0 k ∧
    r.store = CallAgent.applyWrites s
      (CallAgent.segWrites env.agent env.nowF period start 0 k) ∧
    (∃ e, r.notifications =
      [CallAgent.Notification.failure period students_id e]) := by
  subst hr
  obtain ⟨e, he⟩ := CallAgent.runLoop_fail_prefix env.agent env.writeFails
    env.nowF period k n start 0 s [] [] hk
    (fun j hj => by simpa using hpre j hj) (by simpa using hfail)
  refine ⟨?_, ?_, ?_, e, ?_⟩ <;>
    simp [CallAgent.lambda_handler, hparse, he, hsns]

theorem loop_failure_preserves_prefix_witness :
    (CallAgent.lambda_handler
      ⟨fun i => if i = 0 then .ok [⟨some (some "fine")⟩] else .error "boom",
        fun _ => none, fun _ => "2025-04-10T11:50:00", true⟩
      [] ⟨some "10", some "202504", some 3⟩).statusCode = 500 ∧
    (CallAgent.lambda_handler
      ⟨fun i => if i = 0 then .ok [⟨some (some "fine")⟩] else .error "boom",
        fun _ => none, fun _ => "2025-04-10T11:50:00", true⟩
      [] ⟨some "10", some "202504", some 3⟩).writeLog =
      CallAgent.segWrites
        (fun i => if i = 0 then .ok [⟨some (some "fine")⟩] else .error "boom")
        (fun _ => "2025-04-10T11:50:00") "202504" 10 0 1 ∧
    (CallAgent.lambda_handler
      ⟨fun i => if i = 0 then .ok [⟨some (some "fine")⟩] else .error "boom",
        fun _ => none, fun _ => "2025-04-10T11:50:00", true⟩
      [] ⟨some "10", some "202504", some 3⟩).store =
      CallAgent.applyWrites []
        (CallAgent.segWrites
          (fun i => if i = 0 then .ok [⟨some (some "fine")⟩] else .error "boom")
          (fun _ => "2025-04-10T11:50:00") "202504" 10 0 1) ∧
    (∃ e, (CallAgent.lambda_handler
      ⟨fun i => if i = 0 then .ok [⟨some (some "fine")⟩] else .error "boom",
        fun _ => none, fun _ => "2025-04-10T11:50:00", true⟩
      [] ⟨some "10", some "202504", some 3⟩).notifications =
      [CallAgent.Notification.failure "202504" "10" e]) :=
  loop_failure_preserves_prefix _ [] "10" "202504" 3 10 1 _
    rfl (by decide) (by decide)
    (by decide) (by decide) rfl

/-- **C3.** A run with `loop_count = 3` starting at `students_id = "10"` in
which every agent call and every store write succeeds writes
`agent_evaluation` for subjects `"10"`, `"11"`, `"12"`, in exactly that
order, returns 200 with those ids, leaves the store equal to the initial
store with exactly those three writes applied, and publishes exactly one
notification for the whole run (a single success, not one per subject). -/
theorem loop_three_iterations (env : CallAgent.OrchEnv) (s : Store)
    (period : String) (st0 st1 st2 : List StreamEvent)
    (r : CallAgent.OrchResult)
    (h0 : env.agent 0 = .ok st0) (h1 : env.agent 1 = .ok st1)
    (h2 : env.agent 2 = .ok st2)
    (w0 : env.writeFails 0 = none) (w1 : env.writeFails 1 = none)
    (w2 : env.writeFails 2 = none)
    (hsns : env.snsPresent = true)
    (hr : r = CallAgent.lambda_handler env s
      ⟨some "10", some period, some 3⟩) :
    r.statusCode = 200 ∧
    r.results = ["10", "11", "12"] ∧
    r.writeLog =
      [⟨"10", period, concatStream st0,
        CallAgent.sanitizeTimestamp (env.nowF 0)⟩,
       ⟨"11", period, concatStream st1,
        CallAgent.sanitizeTimestamp (env.nowF 1)⟩,
       ⟨"12", period, concatStream st2,
        CallAgent.sanitizeTimestamp (env.nowF 2)⟩] ∧
    r.store = CallAgent.applyWrites s r.writeLog ∧
    r.notifications =
      [CallAgent.Notification.success period ["10", "11", "12"]] := by
  subst hr
  have hp : CallAgent.pyParseInt "10" = some 10 := by decide
  have t10 : toString (10 : Int) = "10" := by decide
  have t11 : toString (11 : Int) = "11" := by decide
  have t12 : toString (12 : Int) = "12" := by decide
  refine ⟨?_, ?_, ?_, ?_, ?_⟩ <;>
    simp [CallAgent.lambda_handler, CallAgent.runLoop, CallAgent.applyWrites,
      hp, h0, h1, h2, w0, w1, w2, hsns, t10, t11, t12]

theorem loop_three_iterations_witness :
    (CallAgent.lambda_handler
      ⟨fun _ => .ok [⟨some (some "good")⟩], fun _ => none,
        fun _ => "2025-04-10T11:50:00", true⟩
      [] ⟨some "10", some "202504", some 3⟩).statusCode = 200 ∧
    (CallAgent.lambda_handler
      ⟨fun _ => .ok [⟨some (some "good")⟩], fun _ => none,
        fun _ => "2025-04-10T11:50:00", true⟩
      [] ⟨some "10", some "202504", some 3⟩).results = ["10", "11", "12"] ∧
    (CallAgent.lambda_handler
      ⟨fun _ => .ok [⟨some (some "good")⟩], fun _ => none,
        fun _ => "2025-04-10T11:50:00", true⟩
      [] ⟨some "10", some "202504", some 3⟩).writeLog =
      [⟨"10", "202504", concatStream [⟨some (some "good")⟩],
        CallAgent.sanitizeTimestamp "2025-04-10T11:50:00"⟩,
       ⟨"11", "202504", concatStream [⟨some (some "good")⟩],
        CallAgent.sanitizeTimestamp "2025-04-10T11:50:00"⟩,
       ⟨"12", "202504", concatStream [⟨some (some "good")⟩],
        CallAgent.sanitizeTimestamp "2025-04-10T11:50:00"⟩] ∧
    (CallAgent.lambda_handler
      ⟨fun _ => .ok [⟨some (some "good")⟩], fun _ => none,
        fun _ => "2025-04-10T11:50:00", true⟩
      [] ⟨some "10", some "202504", some 3⟩).store =
      CallAgent.applyWrites []
        (CallAgent.lambda_handler
          ⟨fun _ => .ok [⟨some (some "good")⟩], fun _ => none,
            fun _ => "2025-04-10T11:50:00", true⟩
          [] ⟨some "10", some "202504", some 3⟩).writeLog ∧
    (CallAgent.lambda_handler
      ⟨fun _ => .ok [⟨some (some "good")⟩], fun _ => none,
        fun _ => "2025-04-10T11:50:00", true⟩
      [] ⟨some "10", some "202504", some 3⟩).notifications =
      [CallAgent.Notification.success "202504" ["10", "11", "12"]] :=
  loop_three_iterations _ [] "202504"
    [⟨some (some "good")⟩] [⟨some (some "good")⟩] [⟨some (some "good")⟩] _
    rfl rfl rfl rfl rfl rfl rfl rfl

/-- **C8 counterexample.** The claim says an unparseable `students_id` is
surfaced to the caller as a 4xx-equivalent; at the concrete input
`students_id = "abc"` the handler returns status 500 (the generic `except`
path), which is not in the 4xx range. -/
theorem invalid_start_not_4xx_counterexample :
    (CallAgent.lambda_handler
      ⟨fun _ => .error "unused", fun _ => none, fun _ => "t", true⟩
      [] ⟨some "abc", some "202504", some 3⟩).statusCode = 500 ∧
    ¬(400 ≤ (CallAgent.lambda_handler
        ⟨fun _ => .error "unused", fun _ => none, fun _ => "t", true⟩
        [] ⟨some "abc", some "202504", some 3⟩).statusCode ∧
      (CallAgent.lambda_handler
        ⟨fun _ => .error "unused", fun _ => none, fun _ => "t", true⟩
        [] ⟨some "abc", some "202504", some 3⟩).statusCode < 500) := by
  decide

/-- **C8 (amended).** For every invocation whose `students_id` is not
parseable as an integer, the handler fails fast before any iteration runs:
no store write is performed and the store is unchanged, the failure is
surfaced to the caller as the generic 500 error response carrying the
`ValueError` text, and one failure notification is published exactly when
the topic is configured. -/
theorem invalid_start_fails_fast (env : CallAgent.OrchEnv) (s : Store)
    (ev : CallAgent.OrchEvent) (r : CallAgent.OrchResult)
    (hr : r = CallAgent.lambda_handler env s ev)
    (hparse : CallAgent.pyParseInt (ev.students_id.getD "1") = none) :
    r.statusCode = 500 ∧ r.writeLog = [] ∧ r.store = s ∧ r.results = [] ∧
    r.notifications =
      (if env.snsPresent then
        [CallAgent.Notification.failure (ev.period.getD "202504")
          (ev.students_id.getD "1")
          (CallAgent.invalidLiteralMsg (ev.students_id.getD "1"))]
      else []) := by
  subst hr
  simp [CallAgent.lambda_handler, hparse]

theorem invalid_start_fails_fast_witness :
    (CallAgent.lambda_handler
      ⟨fun _ => .error "unused", fun _ => none, fun _ => "t", true⟩
      [(("10", "202504"), ⟨some ["x"], some "t0", none, none, none⟩)]
      ⟨some "abc", some "202504", some 3⟩).statusCode = 500 ∧
    (CallAgent.lambda_handler
      ⟨fun _ => .error "unused", fun _ => none, fun _ => "t", true⟩
      [(("10", "202504"), ⟨some ["x"], some "t0", none, none, none⟩)]
      ⟨some "abc", some "202504", some 3⟩).writeLog = [] ∧
    (CallAgent.lambda_handler
      ⟨fun _ => .error "unused", fun _ => none, fun _ => "t", true⟩
      [(("10", "202504"), ⟨some ["x"], some "t0", none, none, none⟩)]
      ⟨some "abc", some "202504", some 3⟩).store =
      [(("10", "202504"), ⟨some ["x"], some "t0", none, none, none⟩)] ∧
    (CallAgent.lambda_handler
      ⟨fun _ => .error "unused", fun _ => none, fun _ => "t", true⟩
      [(("10", "202504"), ⟨some ["x"], some "t0", none, none, none⟩)]
      ⟨some "abc", some "202504", some 3⟩).results = [] ∧
    (CallAgent.lambda_handler
      ⟨fun _ => .error "unused", fun _ => none, fun _ => "t", true⟩
      [(("10", "202504"), ⟨some ["x"], some "t0", none, none, none⟩)]
      ⟨some "abc", some "202504", some 3⟩).notifications =
      (if true then
        [CallAgent.Notification.failure "202504" "abc"
          (CallAgent.invalidLiteralMsg "abc")]
      else []) :=
  invalid_start_fails_fast _
    [(("10", "202504"), ⟨some ["x"], some "t0", none, none, none⟩)]
    ⟨some "abc", some "202504", some 3⟩ _ rfl (by decide)

/-- **C10** (implicit). The orchestration handler publishes a notification
only when `SNS_TOPIC_ARN` is present in its environment: a run executed
without that variable performs zero publishes, while its store writes,
`update_item` log, status code and returned ids are identical to the same
run executed with the variable present. -/
theorem sns_guard_controls_notifications (agent : Nat → CallAgent.AgentResult)
    (writeFails : Nat → Option String) (nowF : Nat → String)
    (s : Store) (ev : CallAgent.OrchEvent) :
    (CallAgent.lambda_handler ⟨agent, writeFails, nowF, false⟩ s ev).notifications
      = [] ∧
    (CallAgent.lambda_handler ⟨agent, writeFails, nowF, false⟩ s ev).store =
      (CallAgent.lambda_handler ⟨agent, writeFails, nowF, true⟩ s ev).store ∧
    (CallAgent.lambda_handler ⟨agent, writeFails, nowF, false⟩ s ev).writeLog =
      (CallAgent.lambda_handler ⟨agent, writeFails, nowF, true⟩ s ev).writeLog ∧
    (CallAgent.lambda_handler ⟨agent, writeFails, nowF, false⟩ s ev).statusCode =
      (CallAgent.lambda_handler ⟨agent, writeFails, nowF, true⟩ s ev).statusCode ∧
    (CallAgent.lambda_handler ⟨agent, writeFails, nowF, false⟩ s ev).results =
      (CallAgent.lambda_handler ⟨agent, writeFails, nowF, true⟩ s ev).results := by
  cases hp : CallAgent.pyParseInt (ev.students_id.getD "1") with
  | none => simp [CallAgent.lambda_handler, hp]
  | some current_id =>
    cases hl : CallAgent.runLoop agent writeFails nowF (ev.period.getD "202504")
        (ev.loop_count.getD 3) current_id 0 s [] [] with
    | ok s' log results => simp [CallAgent.lambda_handler, hp, hl]
    | fail e s' log results => simp [CallAgent.lambda_handler, hp, hl]
